import Mathlib

/-!
# Verification of the TorchTrails notebook (`src/torchie.ipynb`)

A shallow embedding of the notebook's code cells.  The notebook is a linear
script of direct calls into the PyTorch API; we model the repository-level
behaviour of each cell: the custom `Dataset`, the `Net` module, the training
and evaluation loops, checkpoint save/load through a modelled file system,
the transfer-learning substitution, the `DataParallel` wrap, and a
name-resolution model of the cells executed in order.

Numeric tensor entries are modelled as rationals; fallible framework calls
(indexing, shape checks, file loading, strict `load_state_dict`) return
`Except PyError`.
-/

/-- Errors raised by the external framework and propagated to the caller. -/
inductive PyError where
  | indexError
  | shapeMismatch
  | fileNotFound
  | keyError
  | nameError
deriving DecidableEq, Repr

/-! ## Cell 5 — `CustomDataset` (`class CustomDataset(Dataset)`) -/

/-- Constructor `CustomDataset.__init__(self, data, labels)`: stores both sequences with
no validation whatsoever. -/
structure CustomDataset (α β : Type) where
  data : List α
  labels : List β
deriving DecidableEq, Repr

/-- Method `__len__`: `return len(self.data)` — determined by `data` alone. -/
def CustomDataset.len {α β : Type} (d : CustomDataset α β) : Nat :=
  d.data.length

/-- Method `__getitem__`: `return self.data[idx], self.labels[idx]`; an
out-of-range index on either container raises `IndexError`. -/
def CustomDataset.getitem {α β : Type} (d : CustomDataset α β) (idx : Nat) :
    Except PyError (α × β) :=
  match d.data.get? idx, d.labels.get? idx with
  | some a, some b => .ok (a, b)
  | _, _ => .error .indexError

/-- C6: for every `CustomDataset` and every in-range index, `__getitem__`
returns exactly the pair `(data[i], labels[i])`, and `__len__` returns the
length of `data`. -/
theorem customDataset_getitem_ok {α β : Type} (d : CustomDataset α β) (i : Nat)
    (h1 : i < d.data.length) (h2 : i < d.labels.length) :
    d.len = d.data.length ∧
      d.getitem i = .ok (d.data.get ⟨i, h1⟩, d.labels.get ⟨i, h2⟩) := by
  refine ⟨rfl, ?_⟩
  unfold CustomDataset.getitem
  rw [List.get?_eq_get h1, List.get?_eq_get h2]

/-- Witness for C6 on a concrete dataset. -/
theorem customDataset_getitem_ok_witness :
    (CustomDataset.mk [10, 20, 30] [7, 8] : CustomDataset Nat Nat).getitem 1 =
      .ok (20, 8) := by
  have h := customDataset_getitem_ok
    (CustomDataset.mk [10, 20, 30] [7, 8] : CustomDataset Nat Nat) 1
    (by decide) (by decide)
  simpa using h.2

/-- C7: the constructor performs no length validation and the reported
length is `len(data)`; if `labels` is strictly shorter than `data` there is
an in-range index whose `__getitem__` raises an indexing error. -/
theorem customDataset_no_validation {α β : Type} (d : CustomDataset α β)
    (h : d.labels.length < d.data.length) :
    d.len = d.data.length ∧
      ∃ i, i < d.len ∧ d.getitem i = .error .indexError := by
  refine ⟨rfl, d.labels.length, h, ?_⟩
  unfold CustomDataset.getitem
  have hd : d.data.get? d.labels.length = some (d.data.get ⟨d.labels.length, h⟩) :=
    List.get?_eq_get h
  have hl : d.labels.get? d.labels.length = none :=
    List.get?_eq_none.2 (le_refl _)
  rw [hd, hl]

/-- Witness for C7 on a concrete dataset with a short `labels`. -/
theorem customDataset_no_validation_witness :
    (CustomDataset.mk [10, 20] ([] : List Nat) : CustomDataset Nat Nat).len = 2 ∧
      ∃ i, i < (CustomDataset.mk [10, 20] ([] : List Nat) : CustomDataset Nat Nat).len ∧
        (CustomDataset.mk [10, 20] ([] : List Nat) : CustomDataset Nat Nat).getitem i =
          .error .indexError := by
  have h := customDataset_no_validation
    (CustomDataset.mk [10, 20] ([] : List Nat) : CustomDataset Nat Nat) (by decide)
  exact ⟨by simpa using h.1, h.2⟩

/-! ## Cell 6 (markdown-typed) — `class Net(nn.Module)`

`nn.Linear(i, o)` holds a weight of shape `o × i` and a bias of length `o`;
forward is `x ↦ W x + b`.  Weights are parameters of the model (they are
randomly initialised by the framework), so constructors take them as
arguments; the shapes recorded in `inFeatures`/`outFeatures` come from the
source. -/

/-- Layer `nn.Linear`: stores `in_features`, `out_features`, `weight`, `bias`. -/
structure Linear where
  inFeatures : Nat
  outFeatures : Nat
  weight : List (List ℚ)
  bias : List ℚ
deriving DecidableEq, Repr

/-- Dot product of two vectors (truncating at the shorter one). -/
def dot (xs ys : List ℚ) : ℚ :=
  ((xs.zip ys).map (fun p => p.1 * p.2)).sum

/-- The affine map `W x + b` computed row by row. -/
def Linear.applyCore (l : Linear) (x : List ℚ) : List ℚ :=
  (l.weight.zip l.bias).map (fun p => dot p.1 x + p.2)

/-- Applying `nn.Linear` to an input: a shape mismatch raises an error
propagated from the framework. -/
def Linear.apply (l : Linear) (x : List ℚ) : Except PyError (List ℚ) :=
  if x.length = l.inFeatures then .ok (l.applyCore x) else .error .shapeMismatch

/-- The framework's guarantee on the shapes of an `nn.Linear`'s parameters. -/
def Linear.wfb (l : Linear) : Bool :=
  (l.weight.length == l.outFeatures) &&
    l.weight.all (fun r => r.length == l.inFeatures) &&
    (l.bias.length == l.outFeatures)

/-- Function `F.relu` applied elementwise. -/
def reluVec (x : List ℚ) : List ℚ :=
  x.map (fun a => max a 0)

/-- The `class Net(nn.Module)` with `self.fc1` and `self.fc2` as its two layers. -/
structure Net where
  fc1 : Linear
  fc2 : Linear
deriving DecidableEq, Repr

/-- Constructor `Net.__init__`: `self.fc1 = nn.Linear(10, 20)`, `self.fc2 = nn.Linear(20, 5)`;
the parameter tensors are the framework's random initialisation. -/
def Net.init (w1 : List (List ℚ)) (b1 : List ℚ)
    (w2 : List (List ℚ)) (b2 : List ℚ) : Net :=
  ⟨⟨10, 20, w1, b1⟩, ⟨20, 5, w2, b2⟩⟩

/-- Method `Net.forward`: `x = F.relu(self.fc1(x)); x = self.fc2(x); return x`. -/
def Net.forward (n : Net) (x : List ℚ) : Except PyError (List ℚ) := do
  let x1 ← n.fc1.apply x
  let x2 := reluVec x1
  let x3 ← n.fc2.apply x2
  return x3

/-- Spec-side reading of C5's forward pass: first linear layer, then ReLU,
then the second linear layer, nothing else. -/
def specForward (n : Net) (x : List ℚ) : Except PyError (List ℚ) :=
  (Except.map reluVec (n.fc1.apply x)).bind n.fc2.apply

/-- C5: a `Net` has exactly the two linear layers `fc1 : 10 → 20` and
`fc2 : 20 → 5`, and its forward pass is `fc2 ∘ relu ∘ fc1` with no further
transformation. -/
theorem net_architecture (w1 : List (List ℚ)) (b1 : List ℚ)
    (w2 : List (List ℚ)) (b2 : List ℚ) :
    (Net.init w1 b1 w2 b2).fc1.inFeatures = 10 ∧
      (Net.init w1 b1 w2 b2).fc1.outFeatures = 20 ∧
      (Net.init w1 b1 w2 b2).fc2.inFeatures = 20 ∧
      (Net.init w1 b1 w2 b2).fc2.outFeatures = 5 ∧
      ∀ x : List ℚ, (Net.init w1 b1 w2 b2).forward x =
        specForward (Net.init w1 b1 w2 b2) x := by
  refine ⟨rfl, rfl, rfl, rfl, fun x => ?_⟩
  unfold Net.forward specForward
  cases h1 : (Net.init w1 b1 w2 b2).fc1.apply x with
  | error e => simp [h1, Except.map, Except.bind, bind]
  | ok x1 =>
    cases h2 : (Net.init w1 b1 w2 b2).fc2.apply (reluVec x1) <;>
      simp [h1, h2, Except.map, Except.bind, bind, pure, Except.pure]

/-! ## Cell 10 — saving and loading `state_dict` (`model.pth`) -/

/-- A value in a `state_dict`: a 1-D or 2-D tensor. -/
inductive PyTensor where
  | vec (v : List ℚ)
  | mat (m : List (List ℚ))
deriving DecidableEq, Repr

/-- A `state_dict`: an ordered mapping of parameter names to tensors. -/
abbrev StateDict := List (String × PyTensor)

/-- Call `net.state_dict()`: the parameters of both layers keyed by their names. -/
def Net.state_dict (n : Net) : StateDict :=
  [("fc1.weight", .mat n.fc1.weight), ("fc1.bias", .vec n.fc1.bias),
   ("fc2.weight", .mat n.fc2.weight), ("fc2.bias", .vec n.fc2.bias)]

/-- The local file system seen by `torch.save` / `torch.load`: a mapping
from paths to serialised state dicts. -/
abbrev FS := List (String × StateDict)

/-- Call `torch.save(sd, path)`. -/
def torchSave (fs : FS) (path : String) (sd : StateDict) : FS :=
  (path, sd) :: fs

/-- Call `torch.load(path)`: raises if the checkpoint file is missing. -/
def torchLoad (fs : FS) (path : String) : Except PyError StateDict :=
  match fs.lookup path with
  | some sd => .ok sd
  | none => .error .fileNotFound

/-- Call `net.load_state_dict(sd)` (strict): requires exactly the model's keys
with tensors of the right rank, then overwrites the parameters. -/
def Net.load_state_dict (n : Net) (sd : StateDict) : Except PyError Net :=
  if sd.map Prod.fst = ["fc1.weight", "fc1.bias", "fc2.weight", "fc2.bias"] then
    match sd.lookup "fc1.weight", sd.lookup "fc1.bias",
        sd.lookup "fc2.weight", sd.lookup "fc2.bias" with
    | some (.mat w1), some (.vec b1), some (.mat w2), some (.vec b2) =>
        .ok ⟨⟨n.fc1.inFeatures, n.fc1.outFeatures, w1, b1⟩,
             ⟨n.fc2.inFeatures, n.fc2.outFeatures, w2, b2⟩⟩
    | _, _, _, _ => .error .keyError
  else .error .keyError

/-- The save/load cell: `torch.save(net.state_dict(), "model.pth")`;
`loaded_net = Net()`; `loaded_net.load_state_dict(torch.load("model.pth"))`.
`freshNet` stands for the freshly constructed `Net()` with its own random
initialisation. -/
def saveLoadCell (net freshNet : Net) (fs : FS) : Except PyError Net := do
  let fs1 := torchSave fs "model.pth" net.state_dict
  let loaded_net := freshNet
  let sd ← torchLoad fs1 "model.pth"
  loaded_net.load_state_dict sd

/-- C2: the save/load round trip through `model.pth` succeeds and restores
the parameters: the loaded model's `state_dict` equals the saved one, key
for key and value for value. -/
theorem saveLoad_roundtrip (net freshNet : Net) (fs : FS) :
    (saveLoadCell net freshNet fs).map Net.state_dict = .ok net.state_dict := by
  simp [saveLoadCell, torchSave, torchLoad, Net.load_state_dict,
    Net.state_dict, List.lookup, bind, Except.bind, Except.map]

/-! ## Cell 8 — the training loop

The loop's primitive framework calls are recorded as an event trace; the
loss value of each (epoch, batch) pair is an abstract parameter `loss`
(it is computed by the framework from the evolving parameters). -/

/-- One framework call made by the training loop, in program order. -/
inductive TrainEvent where
  | zeroGrad (batch : Nat)
  | forward (batch : Nat)
  | computeLoss (batch : Nat)
  | backward (batch : Nat)
  | optimStep (batch : Nat)
  | printAvgLoss (epoch : Nat) (avg : ℚ)
deriving DecidableEq, Repr

/-- The inner loop `for inputs, labels in dataloader:` of one epoch:
`optimizer.zero_grad(); outputs = net(inputs); loss = criterion(outputs,
labels); loss.backward(); optimizer.step(); running_loss += loss.item()`,
starting from `running_loss = 0.0`. -/
def trainEpoch (loss : Nat → Nat → ℚ) (numBatches epoch : Nat) :
    List TrainEvent × ℚ :=
  (List.range numBatches).foldl
    (fun acc b =>
      (acc.1 ++ [.zeroGrad b, .forward b, .computeLoss b, .backward b, .optimStep b],
       acc.2 + loss epoch b))
    ([], 0)

/-- The outer loop `for epoch in range(5):`, ending each epoch with
`print(f"Epoch ... loss: {running_loss / len(dataloader)}")`. -/
def trainingLoop (loss : Nat → Nat → ℚ) (numBatches : Nat) : List TrainEvent :=
  (List.range 5).foldl
    (fun trace epoch =>
      trace ++ (trainEpoch loss numBatches epoch).1 ++
        [.printAvgLoss epoch ((trainEpoch loss numBatches epoch).2 / (numBatches : ℚ))])
    []

/-- Spec-side (C1's wording): the five calls made for one batch, in order. -/
def specBatchTrace (b : Nat) : List TrainEvent :=
  [.zeroGrad b, .forward b, .computeLoss b, .backward b, .optimStep b]

/-- Spec-side (C1's wording): one epoch visits every batch in order and then
prints the accumulated loss divided by the number of batches. -/
def specEpochTrace (loss : Nat → Nat → ℚ) (numBatches epoch : Nat) :
    List TrainEvent :=
  ((List.range numBatches).map specBatchTrace).join ++
    [.printAvgLoss epoch
      (((List.range numBatches).map (loss epoch)).sum / (numBatches : ℚ))]

/-- Spec-side (C1's wording): exactly five epochs, in order. -/
def specTrainingTrace (loss : Nat → Nat → ℚ) (numBatches : Nat) :
    List TrainEvent :=
  ((List.range 5).map (specEpochTrace loss numBatches)).join

/-- Recognises the end-of-epoch print events in a trace. -/
def TrainEvent.isPrint : TrainEvent → Bool
  | .printAvgLoss _ _ => true
  | _ => false

theorem trainEpoch_foldl_eq (loss : Nat → Nat → ℚ) (epoch : Nat)
    (bs : List Nat) (tr : List TrainEvent) (r : ℚ) :
    bs.foldl
      (fun acc b =>
        (acc.1 ++ [.zeroGrad b, .forward b, .computeLoss b, .backward b, .optimStep b],
         acc.2 + loss epoch b))
      (tr, r) =
    (tr ++ (bs.map specBatchTrace).join, r + (bs.map (loss epoch)).sum) := by
  induction bs generalizing tr r with
  | nil => simp
  | cons b rest ih =>
    simp only [List.foldl_cons, List.map_cons, List.join, List.sum_cons, ih]
    refine congrArg₂ Prod.mk ?_ ?_
    · simp [specBatchTrace]
    · ring

theorem trainEpoch_eq (loss : Nat → Nat → ℚ) (numBatches epoch : Nat) :
    trainEpoch loss numBatches epoch =
      (((List.range numBatches).map specBatchTrace).join,
       ((List.range numBatches).map (loss epoch)).sum) := by
  unfold trainEpoch
  rw [trainEpoch_foldl_eq]
  simp

theorem foldl_append_join {α β : Type} (g : α → List β) (l : List α)
    (init : List β) :
    l.foldl (fun t e => t ++ g e) init = init ++ (l.map g).join := by
  induction l generalizing init with
  | nil => simp
  | cons a rest ih => simp [ih]

theorem foldl_body_congr {α β : Type} (f g : β → α → β) (l : List α)
    (init : β) (h : ∀ t e, f t e = g t e) :
    l.foldl f init = l.foldl g init := by
  induction l generalizing init with
  | nil => rfl
  | cons a rest ih => simp only [List.foldl_cons, h, ih]

/-- C1: the training loop runs exactly five epochs; each epoch performs,
for every batch in order, zero-grad, forward, loss, backward, optimizer
step, and ends by printing the accumulated loss divided by the number of
batches — and the trace contains exactly five end-of-epoch prints. -/
theorem trainingLoop_spec (loss : Nat → Nat → ℚ) (numBatches : Nat) :
    trainingLoop loss numBatches = specTrainingTrace loss numBatches ∧
      ((trainingLoop loss numBatches).filter TrainEvent.isPrint).length = 5 := by
  have hmain : trainingLoop loss numBatches = specTrainingTrace loss numBatches := by
    unfold trainingLoop specTrainingTrace
    have hbody : ∀ (trace : List TrainEvent) (epoch : Nat),
        trace ++ (trainEpoch loss numBatches epoch).1 ++
          [.printAvgLoss epoch
            ((trainEpoch loss numBatches epoch).2 / (numBatches : ℚ))] =
        trace ++ specEpochTrace loss numBatches epoch := by
      intro trace epoch
      rw [trainEpoch_eq]
      simp [specEpochTrace]
    calc (List.range 5).foldl
          (fun trace epoch =>
            trace ++ (trainEpoch loss numBatches epoch).1 ++
              [.printAvgLoss epoch
                ((trainEpoch loss numBatches epoch).2 / (numBatches : ℚ))]) []
        = (List.range 5).foldl
            (fun trace epoch => trace ++ specEpochTrace loss numBatches epoch) [] :=
          foldl_body_congr _ _ _ _ hbody
      _ = [] ++ ((List.range 5).map (specEpochTrace loss numBatches)).join :=
          foldl_append_join _ _ _
      _ = ((List.range 5).map (specEpochTrace loss numBatches)).join := by simp
  refine ⟨hmain, ?_⟩
  rw [hmain]
  have hepoch : ∀ epoch,
      ((specEpochTrace loss numBatches epoch).filter TrainEvent.isPrint).length = 1 := by
    intro epoch
    unfold specEpochTrace
    rw [List.filter_append]
    have hnoprint :
        (((List.range numBatches).map specBatchTrace).join.filter
          TrainEvent.isPrint) = [] := by
      rw [List.filter_eq_nil]
      intro ev hev
      rcases List.mem_join.1 hev with ⟨l, hl, hevl⟩
      rcases List.mem_map.1 hl with ⟨b, _, rfl⟩
      simp only [specBatchTrace, List.mem_cons, List.mem_singleton] at hevl
      rcases hevl with rfl | rfl | rfl | rfl | rfl | h
      · simp [TrainEvent.isPrint]
      · simp [TrainEvent.isPrint]
      · simp [TrainEvent.isPrint]
      · simp [TrainEvent.isPrint]
      · simp [TrainEvent.isPrint]
      · cases h
    rw [hnoprint]
    simp [TrainEvent.isPrint]
  unfold specTrainingTrace
  rw [List.filter_join]
  simp only [List.map_map]
  rw [List.length_join]
  simp [Function.comp, hepoch, List.range_succ]

/-! ## Cell 11 — transfer learning (`torchvision.models.resnet18`)

The pretrained ResNet18 is external; the repository only reads
`model.fc.in_features` and assigns `model.fc`.  We model the network as its
final `fc` layer together with an opaque collection of all other layers and
parameters. -/

/-- Model `torchvision.models.resnet18(pretrained=True)`: the final fully
connected layer `fc` plus every other layer/parameter, keyed by name. -/
structure ResNet18 where
  backbone : List (String × PyTensor)
  fc : Linear
deriving DecidableEq, Repr

/-- The transfer-learning cell:
`num_ftrs = model.fc.in_features; model.fc = nn.Linear(num_ftrs, 10)`.
`freshW`/`freshB` are the new layer's random initialisation. -/
def transferCell (model : ResNet18) (freshW : List (List ℚ)) (freshB : List ℚ) :
    ResNet18 :=
  let num_ftrs := model.fc.inFeatures
  { model with fc := ⟨num_ftrs, 10, freshW, freshB⟩ }

/-- C8: the transfer-learning cell replaces only `fc` — the new layer keeps
the original `in_features` and maps to 10 outputs, and every other layer
and parameter of the pretrained model is unchanged. -/
theorem transferCell_frame (model : ResNet18) (freshW : List (List ℚ))
    (freshB : List ℚ) :
    (transferCell model freshW freshB).backbone = model.backbone ∧
      (transferCell model freshW freshB).fc.inFeatures = model.fc.inFeatures ∧
      (transferCell model freshW freshB).fc.outFeatures = 10 := by
  exact ⟨rfl, rfl, rfl⟩

/-! ## Cell 13 — `DataParallel` -/

/-- A module value as the `net` variable can hold it: either a bare `Net`
or a `DataParallel`-wrapped module. -/
inductive PyModule where
  | net (n : Net)
  | dataParallel (m : PyModule)
deriving DecidableEq, Repr

/-- The distributed-training cell: `if torch.cuda.device_count() > 1:
print(...); net = nn.DataParallel(net)`.  Returns the value of `net` after
the cell and the printed lines. -/
def distributedCell (deviceCount : Nat) (net : PyModule) :
    PyModule × List String :=
  if deviceCount > 1 then
    (.dataParallel net,
     ["Using " ++ toString deviceCount ++ " GPUs for training"])
  else (net, [])

theorem pyModule_ne_dataParallel (m : PyModule) : m ≠ .dataParallel m := by
  induction m with
  | net n => intro h; cases h
  | dataParallel m' ih =>
    intro h
    injection h with h'
    exact ih h'

/-- C9: the network is wrapped in `DataParallel` if and only if the device
count is strictly greater than 1; with 0 or 1 devices `net` is unchanged
and nothing is printed. -/
theorem distributedCell_spec (deviceCount : Nat) (net : PyModule) :
    ((distributedCell deviceCount net).1 = .dataParallel net ↔ 1 < deviceCount) ∧
      (deviceCount ≤ 1 → distributedCell deviceCount net = (net, [])) := by
  constructor
  · constructor
    · intro h
      by_contra hc
      push_neg at hc
      have : distributedCell deviceCount net = (net, []) := by
        unfold distributedCell
        rw [if_neg (by omega)]
      rw [this] at h
      exact pyModule_ne_dataParallel net h
    · intro h
      unfold distributedCell
      rw [if_pos h]
  · intro h
    unfold distributedCell
    rw [if_neg (by omega)]

/-- Witness for C9 at a single device: the network is left unchanged. -/
theorem distributedCell_spec_witness :
    distributedCell 1 (.net (Net.init [] [] [] [])) =
      (.net (Net.init [] [] [] []), []) :=
  (distributedCell_spec 1 (.net (Net.init [] [] [] []))).2 (by decide)

/-! ## Cell 9 — model evaluation

Mutable state of the cell (`correct`, `total`, and — for the frame claim —
the `net` and the dataloader the loop reads) is threaded explicitly. -/

/-- One batch yielded by the `DataLoader`: a list of input rows and the
corresponding integer class labels. -/
structure Batch where
  inputs : List (List ℚ)
  labels : List Nat
deriving DecidableEq, Repr

/-- First index of the maximum, as `torch.max(·, 1)` returns it per row. -/
def idxmaxAux : List ℚ → Nat → ℚ → Nat → Nat
  | [], _, _, best => best
  | a :: rest, i, bv, best =>
      if bv < a then idxmaxAux rest (i + 1) a i
      else idxmaxAux rest (i + 1) bv best

/-- Call `torch.max(row, dim)`: the arg-max for one row. -/
def idxmax : List ℚ → Nat
  | [] => 0
  | a :: rest => idxmaxAux rest 1 a 0

/-- Call `net(inputs)`: the forward pass applied to every row of the batch. -/
def batchForward (n : Net) : List (List ℚ) → Except PyError (List (List ℚ))
  | [] => .ok []
  | x :: rest => do
    let y ← n.forward x
    let ys ← batchForward n rest
    return y :: ys

/-- Count `(predicted == labels).sum().item()`. -/
def matchCount (predicted labels : List Nat) : Nat :=
  (predicted.zip labels).countP (fun p => p.1 == p.2)

/-- The mutable state of the evaluation cell. -/
structure EvalState where
  net : Net
  dataloader : List Batch
  correct : Nat
  total : Nat
deriving DecidableEq, Repr

/-- The body of `for inputs, labels in dataloader:` in the evaluation cell:
`outputs = net(inputs); _, predicted = torch.max(outputs.data, 1);
total += labels.size(0); correct += (predicted == labels).sum().item()`. -/
def evalBody (s : EvalState) (b : Batch) : Except PyError EvalState := do
  let outputs ← batchForward s.net b.inputs
  let predicted := outputs.map idxmax
  let s1 := { s with total := s.total + b.labels.length }
  let s2 := { s1 with correct := s1.correct + matchCount predicted b.labels }
  return s2

/-- The evaluation loop over the dataloader. -/
def evalLoop (s : EvalState) : List Batch → Except PyError EvalState
  | [] => .ok s
  | b :: rest => do
    let s' ← evalBody s b
    evalLoop s' rest

/-- The whole evaluation cell: `correct = 0; total = 0;` then the loop. -/
def evalCell (s : EvalState) : Except PyError EvalState :=
  evalLoop { s with correct := 0, total := 0 } s.dataloader

/-- The forward pass when the shapes line up (no error case). -/
def forwardCore (n : Net) (x : List ℚ) : List ℚ :=
  n.fc2.applyCore (reluVec (n.fc1.applyCore x))

/-- Number of samples of one batch whose arg-max prediction equals the
label. -/
def batchCorrect (n : Net) (b : Batch) : Nat :=
  matchCount (b.inputs.map (fun x => idxmax (forwardCore n x))) b.labels

/-- Spec-side count of correct predictions over the whole dataloader. -/
def specCorrect (n : Net) (bs : List Batch) : Nat :=
  (bs.map (batchCorrect n)).sum

/-- Spec-side number of labels seen over the whole dataloader. -/
def totalLabels (bs : List Batch) : Nat :=
  (bs.map (fun b => b.labels.length)).sum

/-- The framework's shape guarantee for the whole `Net`. -/
def Net.wfb (n : Net) : Bool :=
  n.fc1.wfb && n.fc2.wfb && (n.fc1.outFeatures == n.fc2.inFeatures)

/-- Every input row of every batch has the `Net`'s input width (true of the
notebook's `torch.randn(100, 10)` data). -/
def batchesWfb (n : Net) (bs : List Batch) : Bool :=
  bs.all (fun b => b.inputs.all (fun x => x.length == n.fc1.inFeatures))

theorem applyCore_length (l : Linear) (x : List ℚ) (hw : l.wfb = true) :
    (l.applyCore x).length = l.outFeatures := by
  simp only [Linear.wfb, Bool.and_eq_true, beq_iff_eq, List.all_eq_true] at hw
  simp [Linear.applyCore, hw.1.1, hw.2]

theorem forward_ok (n : Net) (x : List ℚ) (hw : n.wfb = true)
    (hx : x.length = n.fc1.inFeatures) :
    n.forward x = .ok (forwardCore n x) := by
  simp only [Net.wfb, Bool.and_eq_true, beq_iff_eq] at hw
  have h1 : n.fc1.apply x = .ok (n.fc1.applyCore x) := by
    simp [Linear.apply, hx]
  have hlen : (reluVec (n.fc1.applyCore x)).length = n.fc2.inFeatures := by
    simp [reluVec, applyCore_length n.fc1 x hw.1.1, hw.2]
  have h2 : n.fc2.apply (reluVec (n.fc1.applyCore x)) =
      .ok (n.fc2.applyCore (reluVec (n.fc1.applyCore x))) := by
    simp [Linear.apply, hlen]
  simp [Net.forward, h1, h2, forwardCore, bind, Except.bind, pure, Except.pure]

theorem batchForward_ok (n : Net) (hw : n.wfb = true) (xs : List (List ℚ))
    (hxs : xs.all (fun x => x.length == n.fc1.inFeatures) = true) :
    batchForward n xs = .ok (xs.map (forwardCore n)) := by
  induction xs with
  | nil => rfl
  | cons x rest ih =>
    simp only [List.all_cons, Bool.and_eq_true, beq_iff_eq] at hxs
    have hx := forward_ok n x hw hxs.1
    have hr := ih (by simpa using hxs.2)
    simp [batchForward, hx, hr, bind, Except.bind, pure, Except.pure]

theorem evalLoop_ok (n : Net) (hw : n.wfb = true) :
    ∀ (bs : List Batch) (dl : List Batch) (c t : Nat),
      batchesWfb n bs = true →
      evalLoop ⟨n, dl, c, t⟩ bs =
        .ok ⟨n, dl, c + specCorrect n bs, t + totalLabels bs⟩ := by
  intro bs
  induction bs with
  | nil => intro dl c t _; simp [evalLoop, specCorrect, totalLabels]
  | cons b rest ih =>
    intro dl c t hb
    simp only [batchesWfb, List.all_cons, Bool.and_eq_true] at hb
    have hbf := batchForward_ok n hw b.inputs hb.1
    have hbody : evalBody ⟨n, dl, c, t⟩ b =
        .ok ⟨n, dl, c + batchCorrect n b, t + b.labels.length⟩ := by
      simp [evalBody, hbf, batchCorrect, List.map_map, Function.comp_def,
        bind, Except.bind, pure, Except.pure]
    have hrest := ih dl (c + batchCorrect n b) (t + b.labels.length)
      (by simpa [batchesWfb] using hb.2)
    simp only [evalLoop, hbody, bind, Except.bind, hrest]
    simp [specCorrect, totalLabels, Nat.add_assoc]

theorem batchCorrect_le (n : Net) (b : Batch) :
    batchCorrect n b ≤ b.labels.length := by
  unfold batchCorrect matchCount
  calc ((b.inputs.map (fun x => idxmax (forwardCore n x))).zip b.labels).countP
        (fun p => p.1 == p.2)
      ≤ ((b.inputs.map (fun x => idxmax (forwardCore n x))).zip b.labels).length :=
        List.countP_le_length _
    _ ≤ b.labels.length := by
        rw [List.length_zip]
        exact min_le_right _ _

theorem specCorrect_le_totalLabels (n : Net) (bs : List Batch) :
    specCorrect n bs ≤ totalLabels bs := by
  unfold specCorrect totalLabels
  induction bs with
  | nil => simp
  | cons b rest ih =>
    simp only [List.map_cons, List.sum_cons]
    exact Nat.add_le_add (batchCorrect_le n b) ih

/-- C10: under the framework's shape guarantees the evaluation cell
succeeds, leaves the network's parameters and the dataset untouched, sets
`total` to the number of labels seen and `correct` to the number of
samples whose arg-max prediction equals the label, and whenever
`total > 0` the printed accuracy `100 * correct / total` lies between 0
and 100. -/
theorem evalCell_spec (s : EvalState) (hw : s.net.wfb = true)
    (hb : batchesWfb s.net s.dataloader = true) :
    evalCell s =
      .ok ⟨s.net, s.dataloader, specCorrect s.net s.dataloader,
           totalLabels s.dataloader⟩ ∧
      (0 < totalLabels s.dataloader →
        0 ≤ 100 * (specCorrect s.net s.dataloader : ℚ) /
            (totalLabels s.dataloader : ℚ) ∧
          100 * (specCorrect s.net s.dataloader : ℚ) /
            (totalLabels s.dataloader : ℚ) ≤ 100) := by
  constructor
  · have h := evalLoop_ok s.net hw s.dataloader s.dataloader 0 0 hb
    simpa [evalCell] using h
  · intro ht
    have hle : (specCorrect s.net s.dataloader : ℚ) ≤
        (totalLabels s.dataloader : ℚ) := by
      exact_mod_cast specCorrect_le_totalLabels s.net s.dataloader
    have htq : (0 : ℚ) < (totalLabels s.dataloader : ℚ) := by
      exact_mod_cast ht
    constructor
    · positivity
    · rw [div_le_iff htq]
      nlinarith [hle]

/-- A tiny concrete network satisfying the framework's shape guarantees. -/
def wNet : Net := ⟨⟨1, 1, [[1]], [0]⟩, ⟨1, 2, [[1], [2]], [0, 0]⟩⟩

/-- A concrete batch matching `wNet`'s input width. -/
def wBatch : Batch := ⟨[[1]], [1]⟩

/-- A concrete evaluation state (with stale `correct`/`total` values that
the cell must reset). -/
def wEvalState : EvalState := ⟨wNet, [wBatch], 5, 7⟩

/-- Witness for C10 on the concrete state. -/
theorem evalCell_spec_witness :
    evalCell wEvalState =
      .ok ⟨wEvalState.net, wEvalState.dataloader,
           specCorrect wEvalState.net wEvalState.dataloader,
           totalLabels wEvalState.dataloader⟩ ∧
      (0 < totalLabels wEvalState.dataloader →
        0 ≤ 100 * (specCorrect wEvalState.net wEvalState.dataloader : ℚ) /
            (totalLabels wEvalState.dataloader : ℚ) ∧
          100 * (specCorrect wEvalState.net wEvalState.dataloader : ℚ) /
            (totalLabels wEvalState.dataloader : ℚ) ≤ 100) :=
  evalCell_spec wEvalState (by decide) (by decide)

/-! ## The cells in execution order — name resolution

Each cell of `torchie.ipynb` is recorded with its type, the names it needs
from earlier cells (names bound within the cell before use are not
listed), the names it binds, and whether it contains any exception
handler.  Markdown cells bind nothing when the notebook runs. -/

/-- A notebook cell, as the kernel sees it. -/
structure Cell where
  isCode : Bool
  uses : List String
  defines : List String
  catchesExceptions : Bool
deriving DecidableEq, Repr

/-- Python builtins available to every cell. -/
def pythonBuiltins : List String :=
  ["print", "range", "len", "super"]

/-- The cells of `torchie.ipynb` in order.  The `class Net` cell is stored
with `"cell_type": "markdown"` in the notebook, so the kernel never
executes it; it is listed here with `isCode := false`. -/
def torchieCells : List Cell :=
  [ -- `import torch; tensor = torch.tensor(...); print(...)`
    ⟨true, ["print"], ["torch", "tensor"], false⟩,
    -- `tensor = torch.ones(3, 4); print(...); torch.matmul(...)`
    ⟨true, ["torch", "print"], ["tensor"], false⟩,
    -- `if torch.cuda.is_available(): device = ...; tensor = tensor.to(device)`
    ⟨true, ["torch", "tensor", "print"], ["device", "tensor"], false⟩,
    -- `x = torch.tensor(..., requires_grad=True); y = x ** 2; z = y.sum(); z.backward()`
    ⟨true, ["torch", "print"], ["x", "y", "z"], false⟩,
    -- `from torch.utils.data import DataLoader, Dataset; class CustomDataset ...`
    ⟨true, ["torch"],
     ["DataLoader", "Dataset", "CustomDataset", "data", "labels", "dataset",
      "dataloader"], false⟩,
    -- `class Net(nn.Module): ...; net = Net()` — stored as a MARKDOWN cell
    ⟨false, ["nn", "F", "print"], ["Net", "net"], false⟩,
    -- `criterion = nn.CrossEntropyLoss(); optimizer = optim.SGD(net.parameters(), lr=0.01)`
    ⟨true, ["nn", "optim", "net"], ["criterion", "optimizer"], false⟩,
    -- the training loop
    ⟨true, ["range", "dataloader", "optimizer", "net", "criterion", "print", "len"],
     ["epoch", "running_loss", "inputs", "labels", "outputs", "loss"], false⟩,
    -- the evaluation loop
    ⟨true, ["torch", "dataloader", "net", "print"],
     ["correct", "total", "inputs", "labels", "outputs", "predicted"], false⟩,
    -- `torch.save(net.state_dict(), "model.pth"); loaded_net = Net(); ...`
    ⟨true, ["torch", "net", "Net"], ["loaded_net"], false⟩,
    -- `import torchvision; model = torchvision.models.resnet18(...); model.fc = nn.Linear(...)`
    ⟨true, ["nn", "print"], ["torchvision", "model", "num_ftrs"], false⟩,
    -- `import torchvision.transforms as transforms; transform = ...; dataset = ...`
    ⟨true, ["torchvision"], ["transforms", "transform", "dataset"], false⟩,
    -- `if torch.cuda.device_count() > 1: ...; net = nn.DataParallel(net)`
    ⟨true, ["torch", "nn", "net", "print"], ["net"], false⟩ ]

/-- Runs the cells in order over an environment of bound names; returns
the first name a code cell references without it being bound (the name
whose lookup raises `NameError`), or `none` if every cell resolves. -/
def firstUnresolved (env : List String) : List Cell → Option String
  | [] => none
  | c :: rest =>
    if c.isCode then
      match c.uses.find? (fun u => !env.contains u) with
      | some u => some u
      | none => firstUnresolved (env ++ c.defines) rest
    else firstUnresolved env rest

/-- C3 evaluated on the code: executing the code cells in order, the cell
`criterion = nn.CrossEntropyLoss()` is reached with `nn` unbound (the
`class Net` cell is markdown and no cell imports `torch.nn`), so the run
raises `NameError` instead of completing — the claim's property fails on
the notebook as stored. -/
theorem notebook_run_raises_nameError :
    firstUnresolved pythonBuiltins torchieCells = some "nn" := by
  decide

/-! ## Cell 3 — CUDA availability, and C4's failure conditions -/

/-- A tensor together with the device it lives on. -/
structure DevTensor where
  t : PyTensor
  device : String
deriving DecidableEq, Repr

/-- The CUDA cell: `if torch.cuda.is_available(): device =
torch.device("cuda"); tensor = tensor.to(device); print(tensor) else:
print("CUDA not available")`.  Returns the value of `tensor` after the
cell and the printed lines. -/
def cudaCell (cudaAvailable : Bool) (tensor : DevTensor) :
    Except PyError (DevTensor × List String) :=
  if cudaAvailable then
    let device := "cuda"
    let moved := { tensor with device := device }
    .ok (moved, ["tensor(device=" ++ moved.device ++ ")"])
  else
    .ok (tensor, ["CUDA not available"])

/-- Loading a checkpoint into a fresh `Net` when the file may be absent:
`loaded_net.load_state_dict(torch.load("model.pth"))` with no prior save. -/
def loadCheckpointCell (freshNet : Net) (fs : FS) : Except PyError Net := do
  let sd ← torchLoad fs "model.pth"
  freshNet.load_state_dict sd

/-- A concrete tensor for the counterexample. -/
def wDevTensor : DevTensor := ⟨.mat [[1, 2, 3], [4, 5, 6]], "cpu"⟩

/-- Counterexample to C4 as stated: with no CUDA device, the CUDA cell does
not propagate any error to the caller — it branches on
`torch.cuda.is_available()` and completes normally, printing
"CUDA not available". -/
theorem cudaCell_no_error_counterexample :
    cudaCell false wDevTensor = .ok (wDevTensor, ["CUDA not available"]) := by
  rfl

/-- C4 (amended): no code cell contains an exception handler, and a shape
mismatch in the forward pass or a missing checkpoint file at load raises
an error that propagates directly from the framework to the caller; a
missing CUDA device, however, never raises: the CUDA cell branches on
`torch.cuda.is_available()` (and the distributed cell on
`torch.cuda.device_count()`) and falls back to CPU behaviour. -/
theorem no_handling_amended (freshNet : Net) (fs : FS) (net : Net)
    (x : List ℚ) (tensor : DevTensor)
    (hfs : fs.lookup "model.pth" = none)
    (hx : x.length ≠ net.fc1.inFeatures) :
    torchieCells.all (fun c => !c.catchesExceptions) = true ∧
      loadCheckpointCell freshNet fs = .error .fileNotFound ∧
      net.forward x = .error .shapeMismatch ∧
      cudaCell false tensor = .ok (tensor, ["CUDA not available"]) := by
  refine ⟨by decide, ?_, ?_, rfl⟩
  · simp [loadCheckpointCell, torchLoad, hfs, bind, Except.bind]
  · simp [Net.forward, Linear.apply, hx, bind, Except.bind]

/-- Witness for the amended C4 at concrete inputs: an empty file system
and an input row of the wrong width. -/
theorem no_handling_amended_witness :
    torchieCells.all (fun c => !c.catchesExceptions) = true ∧
      loadCheckpointCell wNet [] = .error .fileNotFound ∧
      wNet.forward [1, 2] = .error .shapeMismatch ∧
      cudaCell false wDevTensor = .ok (wDevTensor, ["CUDA not available"]) :=
  no_handling_amended wNet [] wNet [1, 2] wDevTensor (by decide) (by decide)
